import Mathlib

/-!
Shallow embedding of src/src/lib/walletApi.js: a thin client-side gateway
that forwards wallet and payment-settings operations to a remote backend
(remote procedure calls and table queries), with one fallback hop and
error logging.

JSON-like runtime values are modelled by `Value` (including the JS
`undefined`), the backend by a function from requests to responses, and
each operation by a function returning its result, the list of logged
messages, and the ordered trace of backend requests it issued.
-/

/-- JS/JSON runtime values as they flow through walletApi.js. -/
inductive Value where
  | vUndefined : Value
  | vNull : Value
  | vBool : Bool → Value
  | vNum : Int → Value
  | vStr : String → Value
  | vArr : List Value → Value
  | vObj : List (String × Value) → Value

/-- JS truthiness: undefined, null, false, 0 and the empty string are falsy. -/
def truthy : Value → Bool
  | Value.vUndefined => false
  | Value.vNull => false
  | Value.vBool b => b
  | Value.vNum n => n != 0
  | Value.vStr s => s != ""
  | Value.vArr _ => true
  | Value.vObj _ => true

/-- The JS expression `a || b`. -/
def jsOr (a b : Value) : Value :=
  if truthy a then a else b

/-- First-match association lookup among object fields. -/
def lookupField : List (String × Value) → String → Option Value
  | [], _ => none
  | (k, v) :: rest, key => if k = key then some v else lookupField rest key

/-- JS property access `v.key`: a missing key or a non-object yields undefined. -/
def getField (v : Value) (key : String) : Value :=
  match v with
  | Value.vObj fields => (lookupField fields key).getD Value.vUndefined
  | _ => Value.vUndefined

/-- Semantics of the object literal spread-and-override `\x7b...base, key: v\x7d`:
the overridden key keeps its original position when present, else is appended. -/
def setField : List (String × Value) → String → Value → List (String × Value)
  | [], key, v => [(key, v)]
  | (k, w) :: rest, key, v =>
      if k = key then (k, v) :: rest else (k, w) :: setField rest key v

/-- Fields contributed by a JS object spread `\x7b...v\x7d`: objects contribute
their fields; null and undefined contribute none. -/
def spreadFields : Value → List (String × Value)
  | Value.vObj fields => fields
  | _ => []

/-- A backend request, as issued by the supabase client calls in the source:
a remote procedure call with keyword arguments, a table select (possibly
with .single), or a table update keyed by an equality filter. -/
inductive Request where
  | rpc : String → List (String × Value) → Request
  | select : String → String → Bool → Request
  | update : String → Value → String → Value → Request

/-- A supabase-style response: a data payload and an error that is null
(`none`) on success. -/
structure Resp where
  data : Value
  error : Option Value

/-- What running one walletApi operation produces: the returned value or
thrown error, the console.error messages in order, and the ordered trace
of backend requests issued. -/
structure OpResult where
  result : Except Value Value
  logs : List String
  trace : List Request

/-- walletApi.js lines 8-18: rpc get_wallet_balance with p_user_id; on
error log and rethrow, otherwise return the payload. -/
def getWalletBalance (backend : Request → Resp) (userId : Value) : OpResult :=
  let req := Request.rpc "get_wallet_balance" [("p_user_id", userId)]
  let r := backend req
  match r.error with
  | some e => ⟨Except.error e, ["Error fetching wallet balance:"], [req]⟩
  | none => ⟨Except.ok r.data, [], [req]⟩

/-- walletApi.js lines 26-45: rpc get_wallet_transactions; each option is
read off the options object with a `||` default (limit 10, offset 0, type
null, status null); on error log and rethrow, otherwise return the payload. -/
def getWalletTransactions (backend : Request → Resp) (walletId options : Value) : OpResult :=
  let req := Request.rpc "get_wallet_transactions"
    [("p_wallet_id", walletId),
     ("p_limit", jsOr (getField options "limit") (Value.vNum 10)),
     ("p_offset", jsOr (getField options "offset") (Value.vNum 0)),
     ("p_type", jsOr (getField options "type") Value.vNull),
     ("p_status", jsOr (getField options "status") Value.vNull)]
  let r := backend req
  match r.error with
  | some e => ⟨Except.error e, ["Error fetching wallet transactions:"], [req]⟩
  | none => ⟨Except.ok r.data, [], [req]⟩

/-- walletApi.js lines 51-72: rpc get_all_vendor_wallets; if it reports an
error, log it and fall back to a direct select on vendor_wallets, throwing
its error if that also fails; each succeeding branch returns `data || []`. -/
def getVendorWallets (backend : Request → Resp) : OpResult :=
  let req1 := Request.rpc "get_all_vendor_wallets" []
  let r1 := backend req1
  match r1.error with
  | some _ =>
      let req2 := Request.select "vendor_wallets" "*" false
      let r2 := backend req2
      match r2.error with
      | some e2 =>
          ⟨Except.error e2,
           ["Error using RPC function:", "Error fetching vendor wallets:"],
           [req1, req2]⟩
      | none =>
          ⟨Except.ok (jsOr r2.data (Value.vArr [])),
           ["Error using RPC function:"], [req1, req2]⟩
  | none => ⟨Except.ok (jsOr r1.data (Value.vArr [])), [], [req1]⟩

/-- walletApi.js lines 78-99: rpc get_all_driver_wallets with the same
fallback shape as getVendorWallets, over the driver_wallets table. -/
def getDriverWallets (backend : Request → Resp) : OpResult :=
  let req1 := Request.rpc "get_all_driver_wallets" []
  let r1 := backend req1
  match r1.error with
  | some _ =>
      let req2 := Request.select "driver_wallets" "*" false
      let r2 := backend req2
      match r2.error with
      | some e2 =>
          ⟨Except.error e2,
           ["Error using RPC function:", "Error fetching driver wallets:"],
           [req1, req2]⟩
      | none =>
          ⟨Except.ok (jsOr r2.data (Value.vArr [])),
           ["Error using RPC function:"], [req1, req2]⟩
  | none => ⟨Except.ok (jsOr r1.data (Value.vArr [])), [], [req1]⟩

/-- walletApi.js lines 108-125: rpc charge_vendor_wallet with p_vendor_id,
p_amount and p_description; the description parameter defaults to the
Arabic string for top-up when the argument is absent. -/
def chargeVendorWallet (backend : Request → Resp) (vendorId amount : Value)
    (description : Option Value) : OpResult :=
  let desc := match description with
    | none => Value.vStr "شحن رصيد"
    | some d => d
  let req := Request.rpc "charge_vendor_wallet"
    [("p_vendor_id", vendorId), ("p_amount", amount), ("p_description", desc)]
  let r := backend req
  match r.error with
  | some e => ⟨Except.error e, ["Error charging vendor wallet:"], [req]⟩
  | none => ⟨Except.ok r.data, [], [req]⟩

/-- walletApi.js lines 134-151: rpc charge_driver_wallet with p_driver_id,
p_amount and p_description, same default description as the vendor charge. -/
def chargeDriverWallet (backend : Request → Resp) (driverId amount : Value)
    (description : Option Value) : OpResult :=
  let desc := match description with
    | none => Value.vStr "شحن رصيد"
    | some d => d
  let req := Request.rpc "charge_driver_wallet"
    [("p_driver_id", driverId), ("p_amount", amount), ("p_description", desc)]
  let r := backend req
  match r.error with
  | some e => ⟨Except.error e, ["Error charging driver wallet:"], [req]⟩
  | none => ⟨Except.ok r.data, [], [req]⟩

/-- walletApi.js lines 157-167: rpc get_financial_summary with no
arguments; on error log and rethrow, otherwise return the payload. -/
def getFinancialStats (backend : Request → Resp) : OpResult :=
  let req := Request.rpc "get_financial_summary" []
  let r := backend req
  match r.error with
  | some e => ⟨Except.error e, ["Error fetching financial stats:"], [req]⟩
  | none => ⟨Except.ok r.data, [], [req]⟩

/-- walletApi.js lines 173-189: select the settings column of the single
app_settings row, then return `data.settings.payment || \x7b\x7d`. -/
def getPaymentSettings (backend : Request → Resp) : OpResult :=
  let req := Request.select "app_settings" "settings" true
  let r := backend req
  match r.error with
  | some e => ⟨Except.error e, ["Error fetching payment settings:"], [req]⟩
  | none =>
      ⟨Except.ok (jsOr (getField (getField r.data "settings") "payment") (Value.vObj [])),
       [], [req]⟩

/-- walletApi.js lines 196-224: fetch the settings column of the single
app_settings row, build `\x7b...currentData.settings, payment: settings\x7d`,
then update app_settings with the new settings object, filtered by
`.eq(id, currentData.id)` on the fetched row object; return true on
success, log and rethrow on either failure. -/
def updatePaymentSettings (backend : Request → Resp) (settings : Value) : OpResult :=
  let req1 := Request.select "app_settings" "settings" true
  let r1 := backend req1
  match r1.error with
  | some e => ⟨Except.error e, ["Error updating payment settings:"], [req1]⟩
  | none =>
      let currentData := r1.data
      let updatedSettings :=
        Value.vObj (setField (spreadFields (getField currentData "settings")) "payment" settings)
      let req2 := Request.update "app_settings"
        (Value.vObj [("settings", updatedSettings)]) "id" (getField currentData "id")
      let r2 := backend req2
      match r2.error with
      | some e => ⟨Except.error e, ["Error updating payment settings:"], [req1, req2]⟩
      | none => ⟨Except.ok (Value.vBool true), [], [req1, req2]⟩

/-- walletApi.js lines 231-241: rpc get_vendor_wallet with p_vendor_id. -/
def getVendorWallet (backend : Request → Resp) (vendorId : Value) : OpResult :=
  let req := Request.rpc "get_vendor_wallet" [("p_vendor_id", vendorId)]
  let r := backend req
  match r.error with
  | some e => ⟨Except.error e, ["Error fetching vendor wallet:"], [req]⟩
  | none => ⟨Except.ok r.data, [], [req]⟩

/-- walletApi.js lines 248-258: rpc get_driver_wallet with p_driver_id. -/
def getDriverWallet (backend : Request → Resp) (driverId : Value) : OpResult :=
  let req := Request.rpc "get_driver_wallet" [("p_driver_id", driverId)]
  let r := backend req
  match r.error with
  | some e => ⟨Except.error e, ["Error fetching driver wallet:"], [req]⟩
  | none => ⟨Except.ok r.data, [], [req]⟩

/-- A backend that answers every request successfully with the same payload. -/
def bConst (v : Value) : Request → Resp := fun _ => ⟨v, none⟩

/-- A backend that fails every request with the same error object. -/
def bErr (e : Value) : Request → Resp := fun _ => ⟨Value.vNull, some e⟩

/-- A backend whose remote procedures all fail and whose table queries all
succeed with the given rows, modelling a deployment where the procedures
are missing but the tables exist. -/
def bNoRpc (rows : Value) : Request → Resp := fun q =>
  match q with
  | Request.rpc _ _ => ⟨Value.vNull, some (Value.vStr "rpc missing")⟩
  | _ => ⟨rows, none⟩

/-- One row of the app_settings table: its identifier column and its
settings column. -/
structure AppSettingsRow where
  id : Value
  settings : Value

/-- A backend serving a single app_settings row. Selecting the settings
column returns a row object holding only that column (column projection,
as the remote table API does); every other request succeeds with null. -/
def bSettingsDb (row : AppSettingsRow) : Request → Resp := fun q =>
  match q with
  | Request.select "app_settings" "settings" true =>
      ⟨Value.vObj [("settings", row.settings)], none⟩
  | _ => ⟨Value.vNull, none⟩

/-- A backend whose selects succeed with an empty settings document and
whose updates all fail. -/
def bUpdFail : Request → Resp := fun q =>
  match q with
  | Request.update _ _ _ _ => ⟨Value.vNull, some (Value.vStr "update failed")⟩
  | _ => ⟨Value.vObj [("settings", Value.vObj [])], none⟩

/-- The settings document of the spec scenario, stored under row id 7. -/
def exampleRow : AppSettingsRow :=
  ⟨Value.vNum 7,
   Value.vObj [("a", Value.vNum 1), ("payment", Value.vObj [("x", Value.vNum 1)])]⟩

theorem lookupField_setField_self (m : List (String × Value)) (key : String) (v : Value) :
    lookupField (setField m key v) key = some v := by
  induction m with
  | nil => simp [setField, lookupField]
  | cons kv rest ih =>
      obtain ⟨k, w⟩ := kv
      by_cases h : k = key
      · simp [setField, lookupField, h]
      · simp [setField, lookupField, h, ih]

theorem lookupField_setField_other (m : List (String × Value)) (key k : String) (v : Value)
    (hk : k ≠ key) : lookupField (setField m key v) k = lookupField m k := by
  induction m with
  | nil => simp [setField, lookupField, Ne.symm hk]
  | cons kv rest ih =>
      obtain ⟨a, w⟩ := kv
      by_cases h : a = key
      · subst h
        simp [setField, lookupField, Ne.symm hk]
      · simp [setField, lookupField, h, ih]

theorem getWalletTransactions_trace (backend : Request → Resp) (w o : Value) :
    (getWalletTransactions backend w o).trace =
      [Request.rpc "get_wallet_transactions"
        [("p_wallet_id", w),
         ("p_limit", jsOr (getField o "limit") (Value.vNum 10)),
         ("p_offset", jsOr (getField o "offset") (Value.vNum 0)),
         ("p_type", jsOr (getField o "type") Value.vNull),
         ("p_status", jsOr (getField o "status") Value.vNull)]] := by
  cases hr : (backend (Request.rpc "get_wallet_transactions"
      [("p_wallet_id", w), ("p_limit", jsOr (getField o "limit") (Value.vNum 10)),
       ("p_offset", jsOr (getField o "offset") (Value.vNum 0)),
       ("p_type", jsOr (getField o "type") Value.vNull),
       ("p_status", jsOr (getField o "status") Value.vNull)])).error with
  | none => simp [getWalletTransactions, hr]
  | some e => simp [getWalletTransactions, hr]

/-- C7: with an empty options object, getWalletTransactions issues exactly
one request, whose arguments are the wallet id and the defaults
limit 10, offset 0, type null and status null. -/
theorem c7_pagination_defaults (backend : Request → Resp) :
    (getWalletTransactions backend (Value.vStr "W1") (Value.vObj [])).trace =
      [Request.rpc "get_wallet_transactions"
        [("p_wallet_id", Value.vStr "W1"), ("p_limit", Value.vNum 10),
         ("p_offset", Value.vNum 0), ("p_type", Value.vNull),
         ("p_status", Value.vNull)]] := by
  rw [getWalletTransactions_trace]
  rfl

/-- C9: an explicitly passed limit of 0 is falsy under the `||` defaulting,
so it is replaced by the default limit 10; the same happens to a falsy
offset, type or status value. -/
theorem c9_falsy_options_defaulted (backend : Request → Resp) (w : Value) :
    (getWalletTransactions backend w (Value.vObj [("limit", Value.vNum 0)])).trace =
      [Request.rpc "get_wallet_transactions"
        [("p_wallet_id", w), ("p_limit", Value.vNum 10), ("p_offset", Value.vNum 0),
         ("p_type", Value.vNull), ("p_status", Value.vNull)]] ∧
    (getWalletTransactions backend w
        (Value.vObj [("limit", Value.vNum 0), ("offset", Value.vNum 0),
          ("type", Value.vStr ""), ("status", Value.vNull)])).trace =
      [Request.rpc "get_wallet_transactions"
        [("p_wallet_id", w), ("p_limit", Value.vNum 10), ("p_offset", Value.vNum 0),
         ("p_type", Value.vNull), ("p_status", Value.vNull)]] := by
  constructor <;> (rw [getWalletTransactions_trace]; rfl)

theorem updatePaymentSettings_trace (backend : Request → Resp) (settings d : Value)
    (h : backend (Request.select "app_settings" "settings" true) = ⟨d, none⟩) :
    (updatePaymentSettings backend settings).trace =
      [Request.select "app_settings" "settings" true,
       Request.update "app_settings"
         (Value.vObj [("settings",
            Value.vObj (setField (spreadFields (getField d "settings")) "payment" settings))])
         "id" (getField d "id")] := by
  cases hr2 : (backend (Request.update "app_settings"
      (Value.vObj [("settings",
        Value.vObj (setField (spreadFields (getField d "settings")) "payment" settings))])
      "id" (getField d "id"))).error with
  | none => simp [updatePaymentSettings, h, hr2]
  | some e => simp [updatePaymentSettings, h, hr2]

/-- C1: whenever updatePaymentSettings fetches a settings document whose
settings mapping is m, the settings object it writes back is exactly
setField m "payment" newVal: the payment section is replaced wholesale by
the new value (its old nested keys are gone) and every section other than
payment keeps exactly its fetched value. -/
theorem c1_updatePaymentSettings_frame (backend : Request → Resp)
    (m : List (String × Value)) (newVal : Value)
    (h : backend (Request.select "app_settings" "settings" true) =
      ⟨Value.vObj [("settings", Value.vObj m)], none⟩) :
    (∃ key, (updatePaymentSettings backend newVal).trace =
      [Request.select "app_settings" "settings" true,
       Request.update "app_settings"
         (Value.vObj [("settings", Value.vObj (setField m "payment" newVal))]) "id" key]) ∧
    lookupField (setField m "payment" newVal) "payment" = some newVal ∧
    ∀ k, k ≠ "payment" → lookupField (setField m "payment" newVal) k = lookupField m k := by
  refine ⟨⟨getField (Value.vObj [("settings", Value.vObj m)]) "id", ?_⟩,
    lookupField_setField_self m "payment" newVal,
    fun k hk => lookupField_setField_other m "payment" k newVal hk⟩
  rw [updatePaymentSettings_trace backend newVal _ h]
  simp [getField, lookupField, spreadFields]

theorem c1_updatePaymentSettings_frame_witness :
    (bSettingsDb exampleRow (Request.select "app_settings" "settings" true) =
      ⟨Value.vObj [("settings", exampleRow.settings)], none⟩) ∧
    lookupField (setField
        [("a", Value.vNum 1), ("payment", Value.vObj [("x", Value.vNum 1)])]
        "payment" (Value.vObj [("y", Value.vNum 2)])) "payment" =
      some (Value.vObj [("y", Value.vNum 2)]) ∧
    lookupField (setField
        [("a", Value.vNum 1), ("payment", Value.vObj [("x", Value.vNum 1)])]
        "payment" (Value.vObj [("y", Value.vNum 2)])) "a" =
      lookupField [("a", Value.vNum 1), ("payment", Value.vObj [("x", Value.vNum 1)])] "a" :=
  ⟨rfl,
   (c1_updatePaymentSettings_frame (bSettingsDb exampleRow)
      [("a", Value.vNum 1), ("payment", Value.vObj [("x", Value.vNum 1)])]
      (Value.vObj [("y", Value.vNum 2)]) rfl).2.1,
   (c1_updatePaymentSettings_frame (bSettingsDb exampleRow)
      [("a", Value.vNum 1), ("payment", Value.vObj [("x", Value.vNum 1)])]
      (Value.vObj [("y", Value.vNum 2)]) rfl).2.2 "a" (by decide)⟩

/-- C2: running updatePaymentSettings against the app_settings row with
id 7 shows that the write is keyed by .eq(id, undefined): the fetch
selects only the settings column, so the fetched row object carries no id
field and currentData.id is undefined, not the fetched row identifier 7.
The update therefore does not target the row whose id equals the fetched
document identifier. -/
theorem c2_update_keyed_by_undefined :
    (updatePaymentSettings (bSettingsDb exampleRow)
        (Value.vObj [("y", Value.vNum 2)])).trace =
      [Request.select "app_settings" "settings" true,
       Request.update "app_settings"
         (Value.vObj [("settings", Value.vObj
            [("a", Value.vNum 1), ("payment", Value.vObj [("y", Value.vNum 2)])])])
         "id" Value.vUndefined] ∧
    exampleRow.id = Value.vNum 7 ∧
    Value.vUndefined ≠ Value.vNum 7 :=
  ⟨rfl, rfl, fun hc => Value.noConfusion hc⟩

/-- C3: for getVendorWallets and getDriverWallets, if the remote procedure
reports an error but the direct table select succeeds with rows, the
operation returns exactly those rows rather than failing, and zero rows
yield the empty array, never null or undefined; a succeeding primary path
with zero rows likewise yields the empty array. -/
theorem c3_fallback_returns_rows (backend : Request → Resp) :
    (∀ e rows, (backend (Request.rpc "get_all_vendor_wallets" [])).error = some e →
      backend (Request.select "vendor_wallets" "*" false) = ⟨Value.vArr rows, none⟩ →
      (getVendorWallets backend).result = Except.ok (Value.vArr rows)) ∧
    (∀ e rows, (backend (Request.rpc "get_all_driver_wallets" [])).error = some e →
      backend (Request.select "driver_wallets" "*" false) = ⟨Value.vArr rows, none⟩ →
      (getDriverWallets backend).result = Except.ok (Value.vArr rows)) ∧
    (backend (Request.rpc "get_all_vendor_wallets" []) = ⟨Value.vArr [], none⟩ →
      (getVendorWallets backend).result = Except.ok (Value.vArr [])) ∧
    (backend (Request.rpc "get_all_driver_wallets" []) = ⟨Value.vArr [], none⟩ →
      (getDriverWallets backend).result = Except.ok (Value.vArr [])) := by
  refine ⟨fun e rows h1 h2 => ?_, fun e rows h1 h2 => ?_, fun h => ?_, fun h => ?_⟩
  · simp [getVendorWallets, h1, h2, jsOr, truthy]
  · simp [getDriverWallets, h1, h2, jsOr, truthy]
  · simp [getVendorWallets, h, jsOr, truthy]
  · simp [getDriverWallets, h, jsOr, truthy]

theorem c3_fallback_returns_rows_witness :
    ((bNoRpc (Value.vArr []) (Request.rpc "get_all_vendor_wallets" [])).error =
      some (Value.vStr "rpc missing")) ∧
    (bNoRpc (Value.vArr []) (Request.select "vendor_wallets" "*" false) =
      ⟨Value.vArr [], none⟩) ∧
    (getVendorWallets (bNoRpc (Value.vArr []))).result = Except.ok (Value.vArr []) ∧
    (getDriverWallets (bNoRpc (Value.vArr []))).result = Except.ok (Value.vArr []) :=
  ⟨rfl, rfl,
   (c3_fallback_returns_rows (bNoRpc (Value.vArr []))).1
     (Value.vStr "rpc missing") [] rfl rfl,
   (c3_fallback_returns_rows (bNoRpc (Value.vArr []))).2.1
     (Value.vStr "rpc missing") [] rfl rfl⟩

/-- C6: the fallback select is issued exactly when the primary rpc reports
an error: on primary success the trace is the single rpc request (no
fallback, nothing speculative); on primary failure the trace is the rpc
followed by the one fallback select; and if the select also fails the
operation returns that error, the trace still showing exactly those two
requests and no further attempt. -/
theorem c6_fallback_only_after_failure (backend : Request → Resp) :
    ((backend (Request.rpc "get_all_vendor_wallets" [])).error = none →
      (getVendorWallets backend).trace = [Request.rpc "get_all_vendor_wallets" []]) ∧
    (∀ e, (backend (Request.rpc "get_all_vendor_wallets" [])).error = some e →
      (getVendorWallets backend).trace =
        [Request.rpc "get_all_vendor_wallets" [],
         Request.select "vendor_wallets" "*" false]) ∧
    (∀ e e2, (backend (Request.rpc "get_all_vendor_wallets" [])).error = some e →
      (backend (Request.select "vendor_wallets" "*" false)).error = some e2 →
      (getVendorWallets backend).result = Except.error e2) ∧
    ((backend (Request.rpc "get_all_driver_wallets" [])).error = none →
      (getDriverWallets backend).trace = [Request.rpc "get_all_driver_wallets" []]) ∧
    (∀ e, (backend (Request.rpc "get_all_driver_wallets" [])).error = some e →
      (getDriverWallets backend).trace =
        [Request.rpc "get_all_driver_wallets" [],
         Request.select "driver_wallets" "*" false]) ∧
    (∀ e e2, (backend (Request.rpc "get_all_driver_wallets" [])).error = some e →
      (backend (Request.select "driver_wallets" "*" false)).error = some e2 →
      (getDriverWallets backend).result = Except.error e2) := by
  refine ⟨fun h => ?_, fun e h => ?_, fun e e2 h h2 => ?_,
    fun h => ?_, fun e h => ?_, fun e e2 h h2 => ?_⟩
  · simp [getVendorWallets, h]
  · cases hr2 : (backend (Request.select "vendor_wallets" "*" false)).error with
    | none => simp [getVendorWallets, h, hr2]
    | some x => simp [getVendorWallets, h, hr2]
  · simp [getVendorWallets, h, h2]
  · simp [getDriverWallets, h]
  · cases hr2 : (backend (Request.select "driver_wallets" "*" false)).error with
    | none => simp [getDriverWallets, h, hr2]
    | some x => simp [getDriverWallets, h, hr2]
  · simp [getDriverWallets, h, h2]

theorem c6_fallback_only_after_failure_witness :
    ((bConst (Value.vArr []) (Request.rpc "get_all_vendor_wallets" [])).error = none) ∧
    (getVendorWallets (bConst (Value.vArr []))).trace =
      [Request.rpc "get_all_vendor_wallets" []] ∧
    ((bErr (Value.vStr "down") (Request.rpc "get_all_vendor_wallets" [])).error =
      some (Value.vStr "down")) ∧
    (getVendorWallets (bErr (Value.vStr "down"))).trace =
      [Request.rpc "get_all_vendor_wallets" [],
       Request.select "vendor_wallets" "*" false] ∧
    (getVendorWallets (bErr (Value.vStr "down"))).result =
      Except.error (Value.vStr "down") :=
  ⟨rfl,
   (c6_fallback_only_after_failure (bConst (Value.vArr []))).1 rfl,
   rfl,
   (c6_fallback_only_after_failure (bErr (Value.vStr "down"))).2.1
     (Value.vStr "down") rfl,
   (c6_fallback_only_after_failure (bErr (Value.vStr "down"))).2.2.1
     (Value.vStr "down") (Value.vStr "down") rfl rfl⟩

/-- C4 fails as stated: getVendorWallets is procedure-backed, and with a
backend that succeeds returning a null payload it returns the empty array
instead of that payload, so a successful payload is not always returned
unmodified. -/
theorem c4_counterexample :
    (bConst Value.vNull (Request.rpc "get_all_vendor_wallets" [])).error = none ∧
    (bConst Value.vNull (Request.rpc "get_all_vendor_wallets" [])).data = Value.vNull ∧
    (getVendorWallets (bConst Value.vNull)).result = Except.ok (Value.vArr []) ∧
    (Except.ok (Value.vArr []) : Except Value Value) ≠ Except.ok Value.vNull :=
  ⟨rfl, rfl, rfl, fun hc => Value.noConfusion (Except.ok.inj hc)⟩

/-- C4 amended: on backend success every procedure-backed operation other
than getVendorWallets and getDriverWallets returns the payload unmodified
(even null); getVendorWallets and getDriverWallets return the payload
unmodified when it is truthy (any array, even empty, qualifies) and
replace a falsy payload such as null by the empty array. -/
theorem c4_success_payload (backend : Request → Resp)
    (u w opts v amt vid did : Value) (dsc : Option Value) :
    ((backend (Request.rpc "get_wallet_balance" [("p_user_id", u)])).error = none →
      (getWalletBalance backend u).result =
        Except.ok (backend (Request.rpc "get_wallet_balance" [("p_user_id", u)])).data) ∧
    ((backend (Request.rpc "get_wallet_transactions"
        [("p_wallet_id", w),
         ("p_limit", jsOr (getField opts "limit") (Value.vNum 10)),
         ("p_offset", jsOr (getField opts "offset") (Value.vNum 0)),
         ("p_type", jsOr (getField opts "type") Value.vNull),
         ("p_status", jsOr (getField opts "status") Value.vNull)])).error = none →
      (getWalletTransactions backend w opts).result =
        Except.ok (backend (Request.rpc "get_wallet_transactions"
          [("p_wallet_id", w),
           ("p_limit", jsOr (getField opts "limit") (Value.vNum 10)),
           ("p_offset", jsOr (getField opts "offset") (Value.vNum 0)),
           ("p_type", jsOr (getField opts "type") Value.vNull),
           ("p_status", jsOr (getField opts "status") Value.vNull)])).data) ∧
    ((backend (Request.rpc "charge_vendor_wallet"
        [("p_vendor_id", v), ("p_amount", amt),
         ("p_description", dsc.getD (Value.vStr "شحن رصيد"))])).error = none →
      (chargeVendorWallet backend v amt dsc).result =
        Except.ok (backend (Request.rpc "charge_vendor_wallet"
          [("p_vendor_id", v), ("p_amount", amt),
           ("p_description", dsc.getD (Value.vStr "شحن رصيد"))])).data) ∧
    ((backend (Request.rpc "charge_driver_wallet"
        [("p_driver_id", v), ("p_amount", amt),
         ("p_description", dsc.getD (Value.vStr "شحن رصيد"))])).error = none →
      (chargeDriverWallet backend v amt dsc).result =
        Except.ok (backend (Request.rpc "charge_driver_wallet"
          [("p_driver_id", v), ("p_amount", amt),
           ("p_description", dsc.getD (Value.vStr "شحن رصيد"))])).data) ∧
    ((backend (Request.rpc "get_financial_summary" [])).error = none →
      (getFinancialStats backend).result =
        Except.ok (backend (Request.rpc "get_financial_summary" [])).data) ∧
    ((backend (Request.rpc "get_vendor_wallet" [("p_vendor_id", vid)])).error = none →
      (getVendorWallet backend vid).result =
        Except.ok (backend (Request.rpc "get_vendor_wallet" [("p_vendor_id", vid)])).data) ∧
    ((backend (Request.rpc "get_driver_wallet" [("p_driver_id", did)])).error = none →
      (getDriverWallet backend did).result =
        Except.ok (backend (Request.rpc "get_driver_wallet" [("p_driver_id", did)])).data) ∧
    ((backend (Request.rpc "get_all_vendor_wallets" [])).error = none →
      truthy (backend (Request.rpc "get_all_vendor_wallets" [])).data = true →
      (getVendorWallets backend).result =
        Except.ok (backend (Request.rpc "get_all_vendor_wallets" [])).data) ∧
    ((backend (Request.rpc "get_all_vendor_wallets" [])).error = none →
      truthy (backend (Request.rpc "get_all_vendor_wallets" [])).data = false →
      (getVendorWallets backend).result = Except.ok (Value.vArr [])) ∧
    ((backend (Request.rpc "get_all_driver_wallets" [])).error = none →
      truthy (backend (Request.rpc "get_all_driver_wallets" [])).data = true →
      (getDriverWallets backend).result =
        Except.ok (backend (Request.rpc "get_all_driver_wallets" [])).data) ∧
    ((backend (Request.rpc "get_all_driver_wallets" [])).error = none →
      truthy (backend (Request.rpc "get_all_driver_wallets" [])).data = false →
      (getDriverWallets backend).result = Except.ok (Value.vArr [])) := by
  refine ⟨fun h => ?_, fun h => ?_, fun h => ?_, fun h => ?_, fun h => ?_, fun h => ?_,
    fun h => ?_, fun h ht => ?_, fun h ht => ?_, fun h ht => ?_, fun h ht => ?_⟩
  · simp [getWalletBalance, h]
  · simp [getWalletTransactions, h]
  · cases dsc with
    | none => simp [chargeVendorWallet, Option.getD] at h ⊢; simp [h]
    | some dv => simp [chargeVendorWallet, Option.getD] at h ⊢; simp [h]
  · cases dsc with
    | none => simp [chargeDriverWallet, Option.getD] at h ⊢; simp [h]
    | some dv => simp [chargeDriverWallet, Option.getD] at h ⊢; simp [h]
  · simp [getFinancialStats, h]
  · simp [getVendorWallet, h]
  · simp [getDriverWallet, h]
  · simp [getVendorWallets, h, jsOr, ht]
  · simp [getVendorWallets, h, jsOr, ht]
  · simp [getDriverWallets, h, jsOr, ht]
  · simp [getDriverWallets, h, jsOr, ht]

theorem c4_success_payload_witness :
    ((bConst Value.vNull (Request.rpc "get_wallet_balance"
        [("p_user_id", Value.vStr "u")])).error = none) ∧
    (getWalletBalance (bConst Value.vNull) (Value.vStr "u")).result =
      Except.ok Value.vNull ∧
    (getVendorWallets (bConst (Value.vArr [Value.vNum 3]))).result =
      Except.ok (Value.vArr [Value.vNum 3]) :=
  ⟨rfl,
   (c4_success_payload (bConst Value.vNull) (Value.vStr "u") Value.vNull Value.vNull
      Value.vNull Value.vNull Value.vNull Value.vNull none).1 rfl,
   (c4_success_payload (bConst (Value.vArr [Value.vNum 3])) Value.vNull Value.vNull
      Value.vNull Value.vNull Value.vNull Value.vNull Value.vNull
      none).2.2.2.2.2.2.2.1 rfl rfl⟩

/-- C5: with a backend whose every request fails with the error e, every
operation returns exactly that failure (no payload accompanies it, so
failure is all-or-nothing) and its logs contain the message naming that
operation; and when the settings fetch succeeds but the settings write
fails with e2, updatePaymentSettings returns that failure and logs its
message. In the model the logs list collects the console.error messages in
emission order, completed before the failure is returned. -/
theorem c5_failure_error_and_log (backend b2 : Request → Resp) (e e2 d : Value)
    (hb : ∀ q, backend q = ⟨Value.vNull, some e⟩)
    (hsel : b2 (Request.select "app_settings" "settings" true) = ⟨d, none⟩)
    (hupd : ∀ t p c kv, (b2 (Request.update t p c kv)).error = some e2)
    (u w opts v amt vid did sett : Value) (dsc : Option Value) :
    ((getWalletBalance backend u).result = Except.error e ∧
      "Error fetching wallet balance:" ∈ (getWalletBalance backend u).logs) ∧
    ((getWalletTransactions backend w opts).result = Except.error e ∧
      "Error fetching wallet transactions:" ∈ (getWalletTransactions backend w opts).logs) ∧
    ((getVendorWallets backend).result = Except.error e ∧
      "Error fetching vendor wallets:" ∈ (getVendorWallets backend).logs) ∧
    ((getDriverWallets backend).result = Except.error e ∧
      "Error fetching driver wallets:" ∈ (getDriverWallets backend).logs) ∧
    ((chargeVendorWallet backend v amt dsc).result = Except.error e ∧
      "Error charging vendor wallet:" ∈ (chargeVendorWallet backend v amt dsc).logs) ∧
    ((chargeDriverWallet backend v amt dsc).result = Except.error e ∧
      "Error charging driver wallet:" ∈ (chargeDriverWallet backend v amt dsc).logs) ∧
    ((getFinancialStats backend).result = Except.error e ∧
      "Error fetching financial stats:" ∈ (getFinancialStats backend).logs) ∧
    ((getPaymentSettings backend).result = Except.error e ∧
      "Error fetching payment settings:" ∈ (getPaymentSettings backend).logs) ∧
    ((updatePaymentSettings backend sett).result = Except.error e ∧
      "Error updating payment settings:" ∈ (updatePaymentSettings backend sett).logs) ∧
    ((getVendorWallet backend vid).result = Except.error e ∧
      "Error fetching vendor wallet:" ∈ (getVendorWallet backend vid).logs) ∧
    ((getDriverWallet backend did).result = Except.error e ∧
      "Error fetching driver wallet:" ∈ (getDriverWallet backend did).logs) ∧
    ((updatePaymentSettings b2 sett).result = Except.error e2 ∧
      "Error updating payment settings:" ∈ (updatePaymentSettings b2 sett).logs) := by
  refine ⟨?_, ?_, ?_, ?_, ?_, ?_, ?_, ?_, ?_, ?_, ?_, ?_⟩
  · simp [getWalletBalance, hb]
  · simp [getWalletTransactions, hb]
  · simp [getVendorWallets, hb]
  · simp [getDriverWallets, hb]
  · cases dsc with
    | none => simp [chargeVendorWallet, hb]
    | some dv => simp [chargeVendorWallet, hb]
  · cases dsc with
    | none => simp [chargeDriverWallet, hb]
    | some dv => simp [chargeDriverWallet, hb]
  · simp [getFinancialStats, hb]
  · simp [getPaymentSettings, hb]
  · simp [updatePaymentSettings, hb]
  · simp [getVendorWallet, hb]
  · simp [getDriverWallet, hb]
  · simp [updatePaymentSettings, hsel, hupd]

theorem c5_failure_error_and_log_witness :
    (bErr (Value.vStr "boom") (Request.rpc "get_wallet_balance"
        [("p_user_id", Value.vStr "u")]) = ⟨Value.vNull, some (Value.vStr "boom")⟩) ∧
    ((getWalletBalance (bErr (Value.vStr "boom")) (Value.vStr "u")).result =
        Except.error (Value.vStr "boom") ∧
      "Error fetching wallet balance:" ∈
        (getWalletBalance (bErr (Value.vStr "boom")) (Value.vStr "u")).logs) :=
  ⟨rfl,
   (c5_failure_error_and_log (bErr (Value.vStr "boom")) bUpdFail
      (Value.vStr "boom") (Value.vStr "update failed")
      (Value.vObj [("settings", Value.vObj [])])
      (fun _ => rfl) rfl (fun _ _ _ _ => rfl)
      (Value.vStr "u") Value.vNull Value.vNull Value.vNull Value.vNull Value.vNull
      Value.vNull Value.vNull none).1⟩

/-- C8: chargeVendorWallet with no description argument issues exactly one
request carrying the vendor id V1, the amount 50 and the localized default
description, and on backend success returns the backend payload. -/
theorem c8_charge_default_description (backend : Request → Resp)
    (h : (backend (Request.rpc "charge_vendor_wallet"
        [("p_vendor_id", Value.vStr "V1"), ("p_amount", Value.vNum 50),
         ("p_description", Value.vStr "شحن رصيد")])).error = none) :
    (chargeVendorWallet backend (Value.vStr "V1") (Value.vNum 50) none).trace =
      [Request.rpc "charge_vendor_wallet"
        [("p_vendor_id", Value.vStr "V1"), ("p_amount", Value.vNum 50),
         ("p_description", Value.vStr "شحن رصيد")]] ∧
    (chargeVendorWallet backend (Value.vStr "V1") (Value.vNum 50) none).result =
      Except.ok (backend (Request.rpc "charge_vendor_wallet"
        [("p_vendor_id", Value.vStr "V1"), ("p_amount", Value.vNum 50),
         ("p_description", Value.vStr "شحن رصيد")])).data := by
  constructor <;> simp [chargeVendorWallet, h]

theorem c8_charge_default_description_witness :
    ((bConst (Value.vStr "tx") (Request.rpc "charge_vendor_wallet"
        [("p_vendor_id", Value.vStr "V1"), ("p_amount", Value.vNum 50),
         ("p_description", Value.vStr "شحن رصيد")])).error = none) ∧
    (chargeVendorWallet (bConst (Value.vStr "tx")) (Value.vStr "V1") (Value.vNum 50)
        none).result = Except.ok (Value.vStr "tx") :=
  ⟨rfl, (c8_charge_default_description (bConst (Value.vStr "tx")) rfl).2⟩

/-- C10: when the settings fetch succeeds and the fetched settings mapping
has no payment key, getPaymentSettings returns the empty object, not null,
undefined or an error. -/
theorem c10_missing_payment_yields_empty (backend : Request → Resp)
    (m : List (String × Value))
    (h : backend (Request.select "app_settings" "settings" true) =
      ⟨Value.vObj [("settings", Value.vObj m)], none⟩)
    (hm : lookupField m "payment" = none) :
    (getPaymentSettings backend).result = Except.ok (Value.vObj []) := by
  simp [getPaymentSettings, h, getField, lookupField, hm, jsOr, truthy]

theorem c10_missing_payment_yields_empty_witness :
    (bSettingsDb ⟨Value.vNum 7, Value.vObj [("a", Value.vNum 1)]⟩
        (Request.select "app_settings" "settings" true) =
      ⟨Value.vObj [("settings", Value.vObj [("a", Value.vNum 1)])], none⟩) ∧
    lookupField [("a", Value.vNum 1)] "payment" = none ∧
    (getPaymentSettings (bSettingsDb ⟨Value.vNum 7,
        Value.vObj [("a", Value.vNum 1)]⟩)).result = Except.ok (Value.vObj []) :=
  ⟨rfl, rfl,
   c10_missing_payment_yields_empty
     (bSettingsDb ⟨Value.vNum 7, Value.vObj [("a", Value.vNum 1)]⟩)
     [("a", Value.vNum 1)] rfl rfl⟩
